import Mathlib

/-!
Shallow embedding of the VGA hardware emulation core of
`src/subsystems/ntvdm/vga.c` (ReactOS Virtual DOS Machine).

The global mutable variables of the C file become fields of a `State`
record; each C function becomes a state-passing Lean function of the same
name.  `BYTE` values are modelled as `Nat` reduced `% 256` at the points
where the C type forces a byte (function parameters, array cells,
increments of `BYTE` variables); `DWORD` arithmetic is modelled `% 2^32`
where a C expression could exceed the 32-bit range.

The companion header `vga.h` is not part of the provided sources; the
numeric constants it defines are modelled from the specification (standard
VGA port numbers, register indices and bit masks).  The host console
surface (text buffer / graphics framebuffer, mutex, cursor) is an external
collaborator per the specification and its contents are not part of the
modelled state; host-surface creation is modelled as succeeding.
-/

set_option maxRecDepth 8000

namespace VgaEmu

/-- Modelled from the spec: 32-bit `DWORD` modulus. -/
def DWORD_MOD : Nat := 4294967296

/-- Modelled from the spec: number of planes ("four parallel 64 KiB byte stores"). -/
def VGA_NUM_BANKS : Nat := 4

/-- Modelled from the spec: size of one plane (64 KiB). -/
def VGA_BANK_SIZE : Nat := 0x10000

/-- Modelled from the spec: DAC palette byte count, 256 triplet entries of R/G/B. -/
def VGA_PALETTE_SIZE : Nat := 0x300

/-- Modelled from the spec: Attribute Controller index/data port (missing `vga.h`). -/
def VGA_AC_INDEX : Nat := 0x3C0

/-- Modelled from the spec: Attribute Controller read port (missing `vga.h`). -/
def VGA_AC_READ : Nat := 0x3C1

/-- Modelled from the spec: Misc Output write port (missing `vga.h`). -/
def VGA_MISC_WRITE : Nat := 0x3C2

/-- Modelled from the spec: Sequencer index port (missing `vga.h`). -/
def VGA_SEQ_INDEX : Nat := 0x3C4

/-- Modelled from the spec: Sequencer data port (missing `vga.h`). -/
def VGA_SEQ_DATA : Nat := 0x3C5

/-- Modelled from the spec: DAC read-index port (missing `vga.h`). -/
def VGA_DAC_READ_INDEX : Nat := 0x3C7

/-- Modelled from the spec: DAC write-index port (missing `vga.h`). -/
def VGA_DAC_WRITE_INDEX : Nat := 0x3C8

/-- Modelled from the spec: DAC data port (missing `vga.h`). -/
def VGA_DAC_DATA : Nat := 0x3C9

/-- Modelled from the spec: Misc Output read port (missing `vga.h`). -/
def VGA_MISC_READ : Nat := 0x3CC

/-- Modelled from the spec: Graphics Controller index port (missing `vga.h`). -/
def VGA_GC_INDEX : Nat := 0x3CE

/-- Modelled from the spec: Graphics Controller data port (missing `vga.h`). -/
def VGA_GC_DATA : Nat := 0x3CF

/-- Modelled from the spec: CRTC index port (missing `vga.h`). -/
def VGA_CRTC_INDEX : Nat := 0x3D4

/-- Modelled from the spec: CRTC data port (missing `vga.h`). -/
def VGA_CRTC_DATA : Nat := 0x3D5

/-- Modelled from the spec: monochrome status port (missing `vga.h`). -/
def VGA_STAT_MONO : Nat := 0x3BA

/-- Modelled from the spec: color status port (missing `vga.h`). -/
def VGA_STAT_COLOR : Nat := 0x3DA

/-- Modelled from the spec: Misc Output register RAM-enable bit (missing `vga.h`). -/
def VGA_MISC_RAM_ENABLED : Nat := 0x02

/-- Modelled from the spec: number of Sequencer registers (missing `vga.h`). -/
def VGA_SEQ_MAX_REG : Nat := 5

/-- Modelled from the spec: Sequencer reset register index (missing `vga.h`). -/
def VGA_SEQ_RESET_REG : Nat := 0

/-- Modelled from the spec: Sequencer clocking-mode register index (missing `vga.h`). -/
def VGA_SEQ_CLOCK_REG : Nat := 1

/-- Modelled from the spec: Sequencer plane/map mask register index (missing `vga.h`). -/
def VGA_SEQ_MASK_REG : Nat := 2

/-- Modelled from the spec: Sequencer memory-mode register index (missing `vga.h`). -/
def VGA_SEQ_MEM_REG : Nat := 4

/-- Modelled from the spec: the 9/8 dot-mode bit of SEQ.Clock (missing `vga.h`). -/
def VGA_SEQ_CLOCK_98DM : Nat := 0x01

/-- Modelled from the spec: the chain-4 bit of SEQ.Memory (missing `vga.h`). -/
def VGA_SEQ_MEM_C4 : Nat := 0x08

/-- Modelled from the spec: number of Graphics Controller registers (missing `vga.h`). -/
def VGA_GC_MAX_REG : Nat := 9

/-- Modelled from the spec: initial GC index register value (missing `vga.h`). -/
def VGA_GC_RESET_REG : Nat := 0

/-- Modelled from the spec: GC read-map-select register index (missing `vga.h`). -/
def VGA_GC_READ_MAP_SEL_REG : Nat := 4

/-- Modelled from the spec: GC mode register index (missing `vga.h`). -/
def VGA_GC_MODE_REG : Nat := 5

/-- Modelled from the spec: GC misc register index (missing `vga.h`). -/
def VGA_GC_MISC_REG : Nat := 6

/-- Modelled from the spec: the odd/even bit of GC.Mode (missing `vga.h`). -/
def VGA_GC_MODE_OE : Nat := 0x10

/-- Modelled from the spec: the 256-color shift bit of GC.Mode (missing `vga.h`). -/
def VGA_GC_MODE_SHIFT256 : Nat := 0x40

/-- Modelled from the spec: the interleaved-shift bit of GC.Mode (missing `vga.h`). -/
def VGA_GC_MODE_SHIFTREG : Nat := 0x20

/-- Modelled from the spec: the NOALPHA (graphics-mode) bit of GC.Misc (missing `vga.h`). -/
def VGA_GC_MISC_NOALPHA : Nat := 0x01

/-- Modelled from the spec: number of CRTC registers (missing `vga.h`). -/
def VGA_CRTC_MAX_REG : Nat := 25

/-- Modelled from the spec: CRTC horizontal-total register index (missing `vga.h`). -/
def VGA_CRTC_HORZ_TOTAL_REG : Nat := 0

/-- Modelled from the spec: CRTC end-horizontal-display register index (missing `vga.h`). -/
def VGA_CRTC_END_HORZ_DISP_REG : Nat := 1

/-- Modelled from the spec: CRTC overflow register index (missing `vga.h`). -/
def VGA_CRTC_OVERFLOW_REG : Nat := 7

/-- Modelled from the spec: CRTC maximum-scan-line register index (missing `vga.h`). -/
def VGA_CRTC_MAX_SCAN_LINE_REG : Nat := 9

/-- Modelled from the spec: CRTC cursor-start register index (missing `vga.h`). -/
def VGA_CRTC_CURSOR_START_REG : Nat := 10

/-- Modelled from the spec: CRTC cursor-end register index (missing `vga.h`). -/
def VGA_CRTC_CURSOR_END_REG : Nat := 11

/-- Modelled from the spec: CRTC start-address-high register index (missing `vga.h`). -/
def VGA_CRTC_START_ADDR_HIGH_REG : Nat := 12

/-- Modelled from the spec: CRTC start-address-low register index (missing `vga.h`). -/
def VGA_CRTC_START_ADDR_LOW_REG : Nat := 13

/-- Modelled from the spec: CRTC cursor-location-high register index (missing `vga.h`). -/
def VGA_CRTC_CURSOR_LOC_HIGH_REG : Nat := 14

/-- Modelled from the spec: CRTC cursor-location-low register index (missing `vga.h`). -/
def VGA_CRTC_CURSOR_LOC_LOW_REG : Nat := 15

/-- Modelled from the spec: CRTC vertical-display-end register index (missing `vga.h`). -/
def VGA_CRTC_VERT_DISP_END_REG : Nat := 18

/-- Modelled from the spec: CRTC offset (scanline pitch) register index (missing `vga.h`). -/
def VGA_CRTC_OFFSET_REG : Nat := 19

/-- Modelled from the spec: CRTC underline register index (missing `vga.h`). -/
def VGA_CRTC_UNDERLINE_REG : Nat := 20

/-- Modelled from the spec: CRTC mode-control register index (missing `vga.h`). -/
def VGA_CRTC_MODE_CONTROL_REG : Nat := 23

/-- Modelled from the spec: bit 8 of vertical display end, in CRTC.Overflow (missing `vga.h`). -/
def VGA_CRTC_OVERFLOW_VDE8 : Nat := 0x02

/-- Modelled from the spec: bit 9 of vertical display end, in CRTC.Overflow (missing `vga.h`). -/
def VGA_CRTC_OVERFLOW_VDE9 : Nat := 0x40

/-- Modelled from the spec: doubleword-addressing bit of CRTC.Underline (missing `vga.h`). -/
def VGA_CRTC_UNDERLINE_DWORD : Nat := 0x40

/-- Modelled from the spec: byte-addressing bit of CRTC.ModeControl (missing `vga.h`). -/
def VGA_CRTC_MODE_CONTROL_BYTE : Nat := 0x40

/-- Modelled from the spec: number of Attribute Controller registers (missing `vga.h`). -/
def VGA_AC_MAX_REG : Nat := 21

/-- Modelled from the spec: AC palette register 0 index (missing `vga.h`). -/
def VGA_AC_PAL_0_REG : Nat := 0

/-- Modelled from the spec: AC mode-control register index (missing `vga.h`). -/
def VGA_AC_CONTROL_REG : Nat := 16

/-- Modelled from the spec: the 8-bit-color bit of AC.Control (missing `vga.h`). -/
def VGA_AC_CONTROL_8BIT : Nat := 0x40

/-- Modelled from the spec: display-disable bit of the status register (missing `vga.h`). -/
def VGA_STAT_DD : Nat := 0x01

/-- Modelled from the spec: vertical-retrace bit of the status register (missing `vga.h`). -/
def VGA_STAT_VRETRACE : Nat := 0x08

/-- Pointwise update of a byte array modelled as a function. -/
def upd (f : Nat → Nat) (i v : Nat) : Nat → Nat :=
  fun x => if x = i then v else f x

/-- `static CONST DWORD MemoryBase[]` of vga.c: aperture base per selector. -/
def MemoryBase : Nat → Nat
  | 0 => 0xA0000
  | 1 => 0xA0000
  | 2 => 0xB0000
  | _ => 0xB8000

/-- `static CONST DWORD MemoryLimit[]` of vga.c: aperture limit per selector. -/
def MemoryLimit : Nat → Nat
  | 0 => 0xAFFFF
  | 1 => 0xAFFFF
  | 2 => 0xB7FFF
  | _ => 0xBFFFF

/-- The global mutable state of vga.c (host console handles and the host
framebuffer contents are external and not modelled; `UpdateRectangle`
is kept as four numeric fields). -/
structure State where
  memory : Nat → Nat
  miscRegister : Nat
  seqIndex : Nat
  seqRegisters : Nat → Nat
  gcIndex : Nat
  gcRegisters : Nat → Nat
  crtcIndex : Nat
  crtcRegisters : Nat → Nat
  acIndex : Nat
  acLatch : Bool
  acRegisters : Nat → Nat
  dacIndex : Nat
  dacReadWrite : Bool
  dacRegisters : Nat → Nat
  inVerticalRetrace : Bool
  inHorizontalRetrace : Bool
  needsUpdate : Bool
  modeChanged : Bool
  cursorMoved : Bool
  textMode : Bool
  rectLeft : Nat
  rectTop : Nat
  rectRight : Nat
  rectBottom : Nat

/-- Initial values of the static variables of vga.c. -/
def initialState : State where
  memory := fun _ => 0
  miscRegister := 0
  seqIndex := VGA_SEQ_RESET_REG
  seqRegisters := fun _ => 0
  gcIndex := VGA_GC_RESET_REG
  gcRegisters := fun _ => 0
  crtcIndex := VGA_CRTC_HORZ_TOTAL_REG
  crtcRegisters := fun _ => 0
  acIndex := VGA_AC_PAL_0_REG
  acLatch := false
  acRegisters := fun _ => 0
  dacIndex := 0
  dacReadWrite := false
  dacRegisters := fun _ => 0
  inVerticalRetrace := false
  inHorizontalRetrace := false
  needsUpdate := false
  modeChanged := true
  cursorMoved := false
  textMode := true
  rectLeft := 0
  rectTop := 0
  rectRight := 0
  rectBottom := 0

/-- `VgaGetAddressSize` of vga.c. -/
def VgaGetAddressSize (s : State) : Nat :=
  if s.crtcRegisters VGA_CRTC_UNDERLINE_REG &&& VGA_CRTC_UNDERLINE_DWORD ≠ 0 then 4
  else if s.crtcRegisters VGA_CRTC_MODE_CONTROL_REG &&& VGA_CRTC_MODE_CONTROL_BYTE ≠ 0 then 1
  else 2

/-- `VgaGetVideoBaseAddress` of vga.c. -/
def VgaGetVideoBaseAddress (s : State) : Nat :=
  MemoryBase ((s.gcRegisters VGA_GC_MISC_REG >>> 2) &&& 0x03)

/-- `VgaGetVideoLimitAddress` of vga.c. -/
def VgaGetVideoLimitAddress (s : State) : Nat :=
  MemoryLimit ((s.gcRegisters VGA_GC_MISC_REG >>> 2) &&& 0x03)

/-- `VgaTranslateReadAddress` of vga.c.  The C `DWORD Offset = Address - base`
subtraction is modelled as addition of the 32-bit complement modulo `2^32`. -/
def VgaTranslateReadAddress (s : State) (address : Nat) : Nat :=
  let offset0 := (address + (DWORD_MOD - VgaGetVideoBaseAddress s)) % DWORD_MOD
  let pair :=
    if s.seqRegisters VGA_SEQ_MEM_REG &&& VGA_SEQ_MEM_C4 ≠ 0 then
      (offset0 &&& 3, offset0 >>> 2)
    else if s.gcRegisters VGA_GC_MODE_REG &&& VGA_GC_MODE_OE ≠ 0 then
      (offset0 &&& 1, offset0 >>> 1)
    else
      (s.gcRegisters VGA_GC_READ_MAP_SEL_REG &&& 0x03, offset0)
  let offset := (pair.2 * VgaGetAddressSize s) % DWORD_MOD
  (offset + pair.1 * VGA_BANK_SIZE) % DWORD_MOD

/-- `VgaTranslateWriteAddress` of vga.c. -/
def VgaTranslateWriteAddress (s : State) (address : Nat) : Nat :=
  let offset0 := (address + (DWORD_MOD - VgaGetVideoBaseAddress s)) % DWORD_MOD
  let offset1 :=
    if s.seqRegisters VGA_SEQ_MEM_REG &&& VGA_SEQ_MEM_C4 ≠ 0 then offset0 >>> 2
    else if s.gcRegisters VGA_GC_MODE_REG &&& VGA_GC_MODE_OE ≠ 0 then offset0 >>> 1
    else offset0
  (offset1 * VgaGetAddressSize s) % DWORD_MOD

/-- `VgaWriteSequencer` of vga.c. -/
def VgaWriteSequencer (s : State) (data : Nat) : State :=
  { s with seqRegisters := upd s.seqRegisters s.seqIndex data }

/-- `VgaWriteGc` of vga.c. -/
def VgaWriteGc (s : State) (data : Nat) : State :=
  let s1 := { s with gcRegisters := upd s.gcRegisters s.gcIndex data }
  if s1.gcIndex = VGA_GC_MISC_REG then { s1 with modeChanged := true } else s1

/-- `VgaWriteCrtc` of vga.c. -/
def VgaWriteCrtc (s : State) (data : Nat) : State :=
  let s1 := { s with crtcRegisters := upd s.crtcRegisters s.crtcIndex data }
  if s1.crtcIndex = VGA_CRTC_END_HORZ_DISP_REG ∨ s1.crtcIndex = VGA_CRTC_VERT_DISP_END_REG ∨
      s1.crtcIndex = VGA_CRTC_OVERFLOW_REG then
    { s1 with modeChanged := true }
  else if s1.crtcIndex = VGA_CRTC_CURSOR_LOC_LOW_REG ∨
      s1.crtcIndex = VGA_CRTC_CURSOR_LOC_HIGH_REG ∨
      s1.crtcIndex = VGA_CRTC_CURSOR_START_REG ∨
      s1.crtcIndex = VGA_CRTC_CURSOR_END_REG then
    { s1 with cursorMoved := true }
  else s1

/-- `VgaWriteDac` of vga.c.  `VgaDacIndex` is declared `BYTE`, so the C
post-increment wraps modulo 256 before the source's `VgaDacIndex %=
VGA_PALETTE_SIZE` line is applied; both reductions are kept. -/
def VgaWriteDac (s : State) (data : Nat) : State :=
  { s with dacRegisters := upd s.dacRegisters s.dacIndex data,
           dacIndex := ((s.dacIndex + 1) % 256) % VGA_PALETTE_SIZE }

/-- `VgaWriteAc` of vga.c. -/
def VgaWriteAc (s : State) (data : Nat) : State :=
  { s with acRegisters := upd s.acRegisters s.acIndex data }

/-- `VgaGetDisplayResolution` of vga.c, returning `(X, Y)`. -/
def VgaGetDisplayResolution (s : State) : Nat × Nat :=
  let maximumScanLine := 1 + (s.crtcRegisters VGA_CRTC_MAX_SCAN_LINE_REG &&& 0x1F)
  let x0 := s.crtcRegisters VGA_CRTC_END_HORZ_DISP_REG
  let y0 := s.crtcRegisters VGA_CRTC_VERT_DISP_END_REG
  let y1 := if s.crtcRegisters VGA_CRTC_OVERFLOW_REG &&& VGA_CRTC_OVERFLOW_VDE8 ≠ 0 then
              y0 ||| (1 <<< 8)
            else y0
  let y2 := if s.crtcRegisters VGA_CRTC_OVERFLOW_REG &&& VGA_CRTC_OVERFLOW_VDE9 ≠ 0 then
              y1 ||| (1 <<< 9)
            else y1
  let x1 := x0 + 1
  let y3 := y2 + 1
  let x2 :=
    if s.gcRegisters VGA_GC_MISC_REG &&& VGA_GC_MISC_NOALPHA ≠ 0 then
      let xa := x1 * (if s.seqRegisters VGA_SEQ_CLOCK_REG &&& VGA_SEQ_CLOCK_98DM ≠ 0 then 8 else 9)
      if s.acRegisters VGA_AC_CONTROL_REG &&& VGA_AC_CONTROL_8BIT ≠ 0 then xa / 2 else xa
    else x1
  (x2, y3 / maximumScanLine)

/-- `VgaUpdateMode` of vga.c.  Leaving/entering the host text or graphics
surface only touches external console objects; surface creation is
modelled as succeeding, so only `TextMode`, `NeedsUpdate` and
`UpdateRectangle` change here. -/
def VgaUpdateMode (s : State) : State :=
  let resolution := VgaGetDisplayResolution s
  let s1 :=
    if s.gcRegisters VGA_GC_MISC_REG &&& VGA_GC_MISC_NOALPHA = 0 then
      { s with textMode := true }
    else
      { s with textMode := false }
  { s1 with needsUpdate := true, rectLeft := 0, rectTop := 0,
            rectRight := resolution.1, rectBottom := resolution.2 }

/-- `VgaRefreshDisplay` of vga.c.  `VgaUpdateTextCursor` and
`VgaUpdateFramebuffer` write only the external host surface and its
dirty-rectangle bookkeeping, which no claim concerns; the modelled state
transitions are the flag updates of the source. -/
def VgaRefreshDisplay (s : State) : State :=
  let s1 := if s.modeChanged then { VgaUpdateMode s with modeChanged := false } else s
  let s2 := if s1.cursorMoved then { s1 with cursorMoved := false } else s1
  let s3 := { s2 with inVerticalRetrace := true }
  if s3.needsUpdate = false then s3 else { s3 with needsUpdate := false }

/-- `VgaHorizontalRetrace` of vga.c. -/
def VgaHorizontalRetrace (s : State) : State :=
  { s with inHorizontalRetrace := true }

/-- The `for` loop of `VgaReadMemory`: fills caller bytes `i, i+1, ...`
while `n` bytes remain. -/
def vgaReadMemoryLoop (s : State) (address : Nat) : Nat → (Nat → Nat) → Nat → (Nat → Nat)
  | _, buffer, 0 => buffer
  | i, buffer, n + 1 =>
    let videoAddress := VgaTranslateReadAddress s (address + i)
    vgaReadMemoryLoop s address (i + 1) (upd buffer i (s.memory videoAddress)) n

/-- `VgaReadMemory` of vga.c: returns the caller's buffer after the copy.
The C function writes only `Buffer` and no global, so no state is
returned. -/
def VgaReadMemory (s : State) (address : Nat) (buffer : Nat → Nat) (size : Nat) : Nat → Nat :=
  if s.miscRegister &&& VGA_MISC_RAM_ENABLED = 0 then buffer
  else vgaReadMemoryLoop s address 0 buffer size

/-- One iteration of the inner plane loop (`for j`) of `VgaWriteMemory`. -/
def vgaWriteMemoryPlane (address videoAddress b : Nat) (s : State) (j : Nat) : State :=
  if s.seqRegisters VGA_SEQ_MASK_REG &&& (1 <<< j) = 0 then s
  else if s.seqRegisters VGA_SEQ_MEM_REG &&& VGA_SEQ_MEM_C4 ≠ 0 ∧ address &&& 3 ≠ j then s
  else if s.gcRegisters VGA_GC_MODE_REG &&& VGA_GC_MODE_OE ≠ 0 ∧ address &&& 1 ≠ j &&& 1 then s
  else { s with memory := upd s.memory ((videoAddress + j * VGA_BANK_SIZE) % DWORD_MOD) (b % 256) }

/-- The outer `for` loop of `VgaWriteMemory`. -/
def vgaWriteMemoryLoop (address : Nat) (buffer : Nat → Nat) : Nat → Nat → State → State
  | _, 0, s => s
  | i, n + 1, s =>
    let videoAddress := VgaTranslateWriteAddress s (address + i)
    let s2 := List.foldl (vgaWriteMemoryPlane (address + i) videoAddress (buffer i)) s [0, 1, 2, 3]
    vgaWriteMemoryLoop address buffer (i + 1) n s2

/-- `VgaWriteMemory` of vga.c. -/
def VgaWriteMemory (s : State) (address : Nat) (buffer : Nat → Nat) (size : Nat) : State :=
  if s.miscRegister &&& VGA_MISC_RAM_ENABLED = 0 then s
  else if s.seqRegisters VGA_SEQ_MASK_REG &&& 0x0F = 0 then s
  else vgaWriteMemoryLoop address buffer 0 size s

/-- `VgaReadPort` of vga.c: returns the byte read and the successor state
(the DAC data port auto-increments, the status ports reset the AC latch
and the retrace flags; every other port leaves the state unchanged). -/
def VgaReadPort (s : State) (port : Nat) : Nat × State :=
  if port = VGA_AC_INDEX then (s.acIndex, s)
  else if port = VGA_AC_READ then (s.acRegisters s.acIndex, s)
  else if port = VGA_SEQ_INDEX then (s.seqIndex, s)
  else if port = VGA_SEQ_DATA then (s.seqRegisters s.seqIndex, s)
  else if port = VGA_DAC_READ_INDEX then ((if s.dacReadWrite then 0 else 3), s)
  else if port = VGA_DAC_WRITE_INDEX then (s.dacIndex, s)
  else if port = VGA_DAC_DATA then
    if s.dacReadWrite = false then
      (s.dacRegisters s.dacIndex,
       { s with dacIndex := ((s.dacIndex + 1) % 256) % VGA_PALETTE_SIZE })
    else (0, s)
  else if port = VGA_MISC_READ then (s.miscRegister, s)
  else if port = VGA_CRTC_INDEX then (s.crtcIndex, s)
  else if port = VGA_CRTC_DATA then (s.crtcRegisters s.crtcIndex, s)
  else if port = VGA_GC_INDEX then (s.gcIndex, s)
  else if port = VGA_GC_DATA then (s.gcRegisters s.gcIndex, s)
  else if port = VGA_STAT_MONO ∨ port = VGA_STAT_COLOR then
    let s1 := { s with acLatch := false }
    let result1 : Nat := if s1.inVerticalRetrace || s1.inHorizontalRetrace then
                           0 ||| VGA_STAT_DD
                         else 0
    let result2 := if s1.inVerticalRetrace then result1 ||| VGA_STAT_VRETRACE else result1
    (result2, { s1 with inHorizontalRetrace := false, inVerticalRetrace := false })
  else (0, s)

/-- `VgaWritePort` of vga.c (`Data` is a `BYTE` parameter, hence `% 256`).
In the AC_INDEX case the source performs the index-set or data-write and
then toggles the latch; since neither action writes the latch, the toggle
`acLatch := !s.acLatch` is applied inside each branch here. -/
def VgaWritePort (s : State) (port dataIn : Nat) : State :=
  let data := dataIn % 256
  if port = VGA_AC_INDEX then
    if s.acLatch = false then
      (if data < VGA_AC_MAX_REG then { s with acIndex := data, acLatch := !s.acLatch }
       else { s with acLatch := !s.acLatch })
    else { VgaWriteAc s data with acLatch := !s.acLatch }
  else if port = VGA_SEQ_INDEX then
    if data < VGA_SEQ_MAX_REG then { s with seqIndex := data } else s
  else if port = VGA_SEQ_DATA then VgaWriteSequencer s data
  else if port = VGA_DAC_READ_INDEX then
    { s with dacReadWrite := false, dacIndex := data % VGA_PALETTE_SIZE }
  else if port = VGA_DAC_WRITE_INDEX then
    { s with dacReadWrite := true, dacIndex := data % VGA_PALETTE_SIZE }
  else if port = VGA_DAC_DATA then
    if s.dacReadWrite then VgaWriteDac s (data &&& 0x3F) else s
  else if port = VGA_MISC_WRITE then { s with miscRegister := data }
  else if port = VGA_CRTC_INDEX then
    if data < VGA_CRTC_MAX_REG then { s with crtcIndex := data } else s
  else if port = VGA_CRTC_DATA then VgaWriteCrtc s data
  else if port = VGA_GC_INDEX then
    if data < VGA_GC_MAX_REG then { s with gcIndex := data } else s
  else if port = VGA_GC_DATA then VgaWriteGc s data
  else s

/-- The port-write sequence of spec scenario S2: GC.Misc NOALPHA,
SEQ.Clock 9/8-dot, AC.Control 8BIT (via the latched AC port),
CRTC END_HORZ_DISP = 39, VERT_DISP_END = 199, MaxScanLine = 1,
OVERFLOW = 0. -/
def c1Writes : List (Nat × Nat) :=
  [(VGA_GC_INDEX, VGA_GC_MISC_REG), (VGA_GC_DATA, VGA_GC_MISC_NOALPHA),
   (VGA_SEQ_INDEX, VGA_SEQ_CLOCK_REG), (VGA_SEQ_DATA, VGA_SEQ_CLOCK_98DM),
   (VGA_AC_INDEX, VGA_AC_CONTROL_REG), (VGA_AC_INDEX, VGA_AC_CONTROL_8BIT),
   (VGA_CRTC_INDEX, VGA_CRTC_END_HORZ_DISP_REG), (VGA_CRTC_DATA, 39),
   (VGA_CRTC_INDEX, VGA_CRTC_VERT_DISP_END_REG), (VGA_CRTC_DATA, 199),
   (VGA_CRTC_INDEX, VGA_CRTC_MAX_SCAN_LINE_REG), (VGA_CRTC_DATA, 1),
   (VGA_CRTC_INDEX, VGA_CRTC_OVERFLOW_REG), (VGA_CRTC_DATA, 0)]

/-- The state after the scenario S2 register writes and one refresh. -/
def c1State : State :=
  VgaRefreshDisplay (c1Writes.foldl (fun st pd => VgaWritePort st pd.1 pd.2) initialState)

/-- A state with chain-4 set, the full plane mask, and RAM enabled
(used to instantiate the chain-4 round-trip theorem). -/
def c3State : State :=
  { initialState with
      miscRegister := VGA_MISC_RAM_ENABLED,
      seqRegisters :=
        upd (upd initialState.seqRegisters VGA_SEQ_MASK_REG 0x0F) VGA_SEQ_MEM_REG VGA_SEQ_MEM_C4 }

/-- A state with RAM enabled, plane mask 0b0001, planar addressing
(no chain-4, no odd/even) and doubleword address size. -/
def c4State : State :=
  { initialState with
      miscRegister := VGA_MISC_RAM_ENABLED,
      seqRegisters := upd initialState.seqRegisters VGA_SEQ_MASK_REG 0x01,
      crtcRegisters :=
        upd initialState.crtcRegisters VGA_CRTC_UNDERLINE_REG VGA_CRTC_UNDERLINE_DWORD }

/-- `n` successive guest writes of the byte `b` to the DAC data port. -/
def dacDataWrites (b : Nat) : Nat → State → State
  | 0, s => s
  | n + 1, s => dacDataWrites b n (VgaWritePort s VGA_DAC_DATA b)

/-- Successive guest writes of the bytes `ds` to the AC index/data port. -/
def acIndexWrites (s : State) (ds : List Nat) : State :=
  ds.foldl (fun st d => VgaWritePort st VGA_AC_INDEX d) s

/-- The per-bank index invariant of the spec: every current index is
strictly below its bank's register count. -/
def IndexInv (s : State) : Prop :=
  s.seqIndex < VGA_SEQ_MAX_REG ∧ s.gcIndex < VGA_GC_MAX_REG ∧
  s.crtcIndex < VGA_CRTC_MAX_REG ∧ s.acIndex < VGA_AC_MAX_REG

/-- States reachable from the initial state through the guest-facing
entry points of vga.c. -/
inductive Reachable : State → Prop
  | init : Reachable initialState
  | writePort (s : State) (port data : Nat) : Reachable s → Reachable (VgaWritePort s port data)
  | readPort (s : State) (port : Nat) : Reachable s → Reachable (VgaReadPort s port).2
  | writeMemory (s : State) (address : Nat) (buffer : Nat → Nat) (size : Nat) :
      Reachable s → Reachable (VgaWriteMemory s address buffer size)
  | horizontalRetrace (s : State) : Reachable s → Reachable (VgaHorizontalRetrace s)
  | refresh (s : State) : Reachable s → Reachable (VgaRefreshDisplay s)

attribute [simp] DWORD_MOD VGA_NUM_BANKS VGA_BANK_SIZE VGA_PALETTE_SIZE VGA_AC_INDEX
  VGA_AC_READ VGA_MISC_WRITE VGA_SEQ_INDEX VGA_SEQ_DATA VGA_DAC_READ_INDEX
  VGA_DAC_WRITE_INDEX VGA_DAC_DATA VGA_MISC_READ VGA_GC_INDEX VGA_GC_DATA VGA_CRTC_INDEX
  VGA_CRTC_DATA VGA_STAT_MONO VGA_STAT_COLOR VGA_MISC_RAM_ENABLED VGA_SEQ_MAX_REG
  VGA_SEQ_RESET_REG VGA_SEQ_CLOCK_REG VGA_SEQ_MASK_REG VGA_SEQ_MEM_REG VGA_SEQ_CLOCK_98DM
  VGA_SEQ_MEM_C4 VGA_GC_MAX_REG VGA_GC_RESET_REG VGA_GC_READ_MAP_SEL_REG VGA_GC_MODE_REG
  VGA_GC_MISC_REG VGA_GC_MODE_OE VGA_GC_MODE_SHIFT256 VGA_GC_MODE_SHIFTREG
  VGA_GC_MISC_NOALPHA VGA_CRTC_MAX_REG VGA_CRTC_HORZ_TOTAL_REG VGA_CRTC_END_HORZ_DISP_REG
  VGA_CRTC_OVERFLOW_REG VGA_CRTC_MAX_SCAN_LINE_REG VGA_CRTC_CURSOR_START_REG
  VGA_CRTC_CURSOR_END_REG VGA_CRTC_START_ADDR_HIGH_REG VGA_CRTC_START_ADDR_LOW_REG
  VGA_CRTC_CURSOR_LOC_HIGH_REG VGA_CRTC_CURSOR_LOC_LOW_REG VGA_CRTC_VERT_DISP_END_REG
  VGA_CRTC_OFFSET_REG VGA_CRTC_UNDERLINE_REG VGA_CRTC_MODE_CONTROL_REG
  VGA_CRTC_OVERFLOW_VDE8 VGA_CRTC_OVERFLOW_VDE9 VGA_CRTC_UNDERLINE_DWORD
  VGA_CRTC_MODE_CONTROL_BYTE VGA_AC_MAX_REG VGA_AC_PAL_0_REG VGA_AC_CONTROL_REG
  VGA_AC_CONTROL_8BIT VGA_STAT_DD VGA_STAT_VRETRACE

/-- The aperture base table only holds the three standard bases. -/
theorem MemoryBase_cases (n : Nat) :
    MemoryBase n = 0xA0000 ∨ MemoryBase n = 0xB0000 ∨ MemoryBase n = 0xB8000 := by
  rcases n with _ | _ | _ | m <;> simp [MemoryBase]

/-- The decoded address size is 1, 2 or 4. -/
theorem VgaGetAddressSize_cases (s : State) :
    VgaGetAddressSize s = 1 ∨ VgaGetAddressSize s = 2 ∨ VgaGetAddressSize s = 4 := by
  unfold VgaGetAddressSize
  split_ifs <;> simp

/-- C1 counterexample: the register sequence of the claim (GC.Misc NOALPHA,
SEQ.Clock 9/8-dot = 8, AC.Control 8BIT, CRTC END_HORZ_DISP = 39,
VERT_DISP_END = 199, MaxScanLine = 1, OVERFLOW = 0) followed by a refresh
does not yield the claimed 320×200 resolution. -/
theorem c1_sequence_yields_not_320x200 :
    VgaGetDisplayResolution c1State ≠ (320, 200) := by decide

/-- C1 (amended): the register sequence of the claim followed by a refresh
yields the derived display resolution 160×100 (the 8-dot multiply of
X = 39 + 1 is halved by the 8BIT bit, and Y = 199 + 1 is divided by the
maximum scan line 1 + 1) and `TextMode = false`. -/
theorem c1_sequence_yields_160x100_graphics :
    VgaGetDisplayResolution c1State = (160, 100) ∧ c1State.textMode = false := by decide

/-- C2 counterexample: in the initial state the DAC direction flag is in
read mode (`VgaDacReadWrite = FALSE`, the state set by a DAC_READ_INDEX
write), yet reading DAC_READ_INDEX returns 3, not 0. -/
theorem c2_read_mode_returns_three_not_zero :
    initialState.dacReadWrite = false ∧
    (VgaReadPort initialState VGA_DAC_READ_INDEX).1 ≠ 0 := by decide

/-- C2 (amended): reading port DAC_READ_INDEX returns 3 when the DAC
direction flag is in read mode (`dacReadWrite = false`) and 0 when it is
in write mode — the opposite polarity of the claim. -/
theorem c2_dac_state_read_inverted (s : State) :
    (VgaReadPort s VGA_DAC_READ_INDEX).1 = if s.dacReadWrite then 0 else 3 := by
  simp [VgaReadPort]

/-- C4: evaluating `VgaWriteMemory` at the failing input.  In planar mode
with doubleword address size, a one-byte write at guest address 0xA4000
with plane mask 0b0001 lands at flat offset 0x10000 — byte 0 of plane 1 —
although bit 1 of the mask is clear, so a masked-off plane is modified. -/
theorem c4_plane_mask_gating_violated_dword_planar :
    c4State.seqRegisters VGA_SEQ_MASK_REG &&& (1 <<< 1) = 0 ∧
    c4State.memory (1 * VGA_BANK_SIZE + 0) = 0 ∧
    (VgaWriteMemory c4State 0xA4000 (fun _ => 0xAA) 1).memory (1 * VGA_BANK_SIZE + 0) = 0xAA := by
  decide

/-- C6: evaluating the code at the failing input.  `VgaDacIndex` is a
`BYTE`, so after setting the write index to 200 and writing 100 bytes the
DAC index is (200 + 100) mod 256 = 44, while the claim demands
(200 + 100) mod PALETTE_SIZE = 300. -/
theorem c6_dac_index_wraps_at_256_not_768 :
    (dacDataWrites 0 100 (VgaWritePort initialState VGA_DAC_WRITE_INDEX 200)).dacIndex = 44 ∧
    (200 + 100) % VGA_PALETTE_SIZE = 300 ∧ (44 : Nat) ≠ 300 := by decide

/-- C7: after `VgaHorizontalRetrace`, the next STAT_COLOR read returns a
byte with the DD bit set and clears both retrace flags, and an immediately
following second read returns a byte with DD clear. -/
theorem c7_horizontal_retrace_status_dd (s : State) :
    (VgaReadPort (VgaHorizontalRetrace s) VGA_STAT_COLOR).1 &&& VGA_STAT_DD ≠ 0 ∧
    (VgaReadPort (VgaHorizontalRetrace s) VGA_STAT_COLOR).2.inHorizontalRetrace = false ∧
    (VgaReadPort (VgaHorizontalRetrace s) VGA_STAT_COLOR).2.inVerticalRetrace = false ∧
    (VgaReadPort (VgaReadPort (VgaHorizontalRetrace s) VGA_STAT_COLOR).2
        VGA_STAT_COLOR).1 &&& VGA_STAT_DD = 0 := by
  cases hv : s.inVerticalRetrace <;>
    simp [VgaReadPort, VgaHorizontalRetrace, hv]

/-- C10: reading port DAC_DATA while the DAC direction flag is in write
mode returns 0 and leaves the whole state (in particular the DAC index and
palette registers) unchanged. -/
theorem c10_dac_data_read_write_mode_noop (s : State) (h : s.dacReadWrite = true) :
    (VgaReadPort s VGA_DAC_DATA).1 = 0 ∧ (VgaReadPort s VGA_DAC_DATA).2 = s := by
  simp [VgaReadPort, h]

/-- C10 witness: concrete instance after a DAC_WRITE_INDEX write. -/
theorem c10_dac_data_read_write_mode_noop_witness :
    (VgaReadPort (VgaWritePort initialState VGA_DAC_WRITE_INDEX 5) VGA_DAC_DATA).1 = 0 ∧
    (VgaReadPort (VgaWritePort initialState VGA_DAC_WRITE_INDEX 5) VGA_DAC_DATA).2 =
      VgaWritePort initialState VGA_DAC_WRITE_INDEX 5 :=
  c10_dac_data_read_write_mode_noop (VgaWritePort initialState VGA_DAC_WRITE_INDEX 5) (by decide)

/-- C8: with RAM access disabled both memory entry points are no-ops — the
read leaves the caller's buffer unchanged and the write leaves the state
unchanged — and a write is additionally a no-op whenever the low nibble of
SEQ.PlaneMask is zero. -/
theorem c8_ram_disabled_noops (s : State) (address size : Nat) (buffer : Nat → Nat) :
    (s.miscRegister &&& VGA_MISC_RAM_ENABLED = 0 →
      VgaReadMemory s address buffer size = buffer ∧
      VgaWriteMemory s address buffer size = s) ∧
    (s.seqRegisters VGA_SEQ_MASK_REG &&& 0x0F = 0 →
      VgaWriteMemory s address buffer size = s) := by
  constructor
  · intro h
    simp at h
    constructor <;> simp [VgaReadMemory, VgaWriteMemory, h]
  · intro h
    simp at h
    by_cases h2 : s.miscRegister &&& 2 = 0 <;> simp [VgaWriteMemory, h, h2]

/-- C8 witness: in the initial state RAM is disabled and the plane mask is
zero, so a 64-byte write then read leaves buffer and state unchanged. -/
theorem c8_ram_disabled_noops_witness :
    (VgaReadMemory initialState 0xA0000 (fun _ => 7) 64 = (fun _ => 7) ∧
     VgaWriteMemory initialState 0xA0000 (fun _ => 7) 64 = initialState) ∧
    VgaWriteMemory initialState 0xA0000 (fun _ => 7) 64 = initialState :=
  ⟨(c8_ram_disabled_noops initialState 0xA0000 64 (fun _ => 7)).1 (by decide),
   (c8_ram_disabled_noops initialState 0xA0000 64 (fun _ => 7)).2 (by decide)⟩

/-- A write to the AC index/data port always flips the latch. -/
theorem acIndexWrite_latch_flips (s : State) (d : Nat) :
    (VgaWritePort s VGA_AC_INDEX d).acLatch = !s.acLatch := by
  cases hl : s.acLatch
  · by_cases hd : d % 256 < 21 <;> simp [VgaWritePort, VgaWriteAc, hl, hd]
  · simp [VgaWritePort, VgaWriteAc, hl]

/-- After a run of AC index/data port writes, the latch equals the initial
latch xor the parity of the number of writes. -/
theorem acIndexWrites_latch (ds : List Nat) : ∀ s : State,
    (acIndexWrites s ds).acLatch = (s.acLatch).xor (decide (ds.length % 2 = 1)) := by
  induction ds with
  | nil => intro s; simp [acIndexWrites]
  | cons d ds ih =>
    intro s
    have h1 : acIndexWrites s (d :: ds) = acIndexWrites (VgaWritePort s VGA_AC_INDEX d) ds := rfl
    rw [h1, ih, acIndexWrite_latch_flips]
    rcases Nat.mod_two_eq_zero_or_one ds.length with h | h <;>
      simp [List.length_cons, Nat.add_mod, h]

/-- C5: writes to port AC_INDEX strictly alternate.  With the latch clear
the write is an index set (the AC registers are untouched and the latch
becomes set); with the latch set it is a data write into the current AC
register (the index is untouched and the latch clears).  Reading either
status port resets the latch to `false`, and after a status read followed
by a run of AC_INDEX writes the latch equals the parity of the number of
writes, so even-numbered writes are index sets and odd-numbered writes are
data writes. -/
theorem c5_ac_latch_alternation (s : State) (ds : List Nat) (d : Nat) :
    (VgaReadPort s VGA_STAT_MONO).2.acLatch = false ∧
    (VgaReadPort s VGA_STAT_COLOR).2.acLatch = false ∧
    (VgaWritePort s VGA_AC_INDEX d).acLatch = !s.acLatch ∧
    ((VgaWritePort s VGA_AC_INDEX d).acRegisters =
      if s.acLatch then upd s.acRegisters s.acIndex (d % 256) else s.acRegisters) ∧
    ((VgaWritePort s VGA_AC_INDEX d).acIndex =
      if s.acLatch then s.acIndex
      else if d % 256 < VGA_AC_MAX_REG then d % 256 else s.acIndex) ∧
    (acIndexWrites (VgaReadPort s VGA_STAT_COLOR).2 ds).acLatch =
      decide (ds.length % 2 = 1) := by
  refine ⟨by simp [VgaReadPort], by simp [VgaReadPort], acIndexWrite_latch_flips s d, ?_, ?_, ?_⟩
  · cases hl : s.acLatch
    · by_cases hd : d % 256 < 21 <;> simp [VgaWritePort, VgaWriteAc, hl, hd]
    · simp [VgaWritePort, VgaWriteAc, hl]
  · cases hl : s.acLatch
    · by_cases hd : d % 256 < 21 <;> simp [VgaWritePort, VgaWriteAc, hl, hd]
    · simp [VgaWritePort, VgaWriteAc, hl]
  · rw [acIndexWrites_latch]
    have h2 : (VgaReadPort s VGA_STAT_COLOR).2.acLatch = false := by simp [VgaReadPort]
    rw [h2]
    cases hp : decide (ds.length % 2 = 1) <;> rfl

@[simp] theorem vgaWriteMemoryPlane_seqIndex (a v b : Nat) (s : State) (j : Nat) :
    (vgaWriteMemoryPlane a v b s j).seqIndex = s.seqIndex := by
  unfold vgaWriteMemoryPlane; split_ifs <;> rfl

@[simp] theorem vgaWriteMemoryPlane_gcIndex (a v b : Nat) (s : State) (j : Nat) :
    (vgaWriteMemoryPlane a v b s j).gcIndex = s.gcIndex := by
  unfold vgaWriteMemoryPlane; split_ifs <;> rfl

@[simp] theorem vgaWriteMemoryPlane_crtcIndex (a v b : Nat) (s : State) (j : Nat) :
    (vgaWriteMemoryPlane a v b s j).crtcIndex = s.crtcIndex := by
  unfold vgaWriteMemoryPlane; split_ifs <;> rfl

@[simp] theorem vgaWriteMemoryPlane_acIndex (a v b : Nat) (s : State) (j : Nat) :
    (vgaWriteMemoryPlane a v b s j).acIndex = s.acIndex := by
  unfold vgaWriteMemoryPlane; split_ifs <;> rfl

/-- The memory-write loop never changes any bank's current index. -/
theorem vgaWriteMemoryLoop_indices (a : Nat) (buf : Nat → Nat) :
    ∀ n i s, (vgaWriteMemoryLoop a buf i n s).seqIndex = s.seqIndex ∧
      (vgaWriteMemoryLoop a buf i n s).gcIndex = s.gcIndex ∧
      (vgaWriteMemoryLoop a buf i n s).crtcIndex = s.crtcIndex ∧
      (vgaWriteMemoryLoop a buf i n s).acIndex = s.acIndex := by
  intro n
  induction n with
  | zero => intro i s; simp [vgaWriteMemoryLoop]
  | succ n ih =>
    intro i s
    have h := ih (i + 1)
      (List.foldl (vgaWriteMemoryPlane (a + i) (VgaTranslateWriteAddress s (a + i)) (buf i))
        s [0, 1, 2, 3])
    simp only [vgaWriteMemoryLoop]
    simpa [List.foldl] using h

/-- How a port write affects the four bank index registers. -/
theorem VgaWritePort_indices (s : State) (p d : Nat) :
    (VgaWritePort s p d).seqIndex =
      (if p = VGA_SEQ_INDEX ∧ d % 256 < VGA_SEQ_MAX_REG then d % 256 else s.seqIndex) ∧
    (VgaWritePort s p d).gcIndex =
      (if p = VGA_GC_INDEX ∧ d % 256 < VGA_GC_MAX_REG then d % 256 else s.gcIndex) ∧
    (VgaWritePort s p d).crtcIndex =
      (if p = VGA_CRTC_INDEX ∧ d % 256 < VGA_CRTC_MAX_REG then d % 256 else s.crtcIndex) ∧
    (VgaWritePort s p d).acIndex =
      (if p = VGA_AC_INDEX ∧ s.acLatch = false ∧ d % 256 < VGA_AC_MAX_REG then d % 256
       else s.acIndex) := by
  by_cases h1 : p = VGA_AC_INDEX
  · subst h1
    cases hl : s.acLatch <;> by_cases hd : d % 256 < 21 <;>
      simp [VgaWritePort, VgaWriteAc, hl, hd]
  by_cases h2 : p = VGA_SEQ_INDEX
  · subst h2
    by_cases hd : d % 256 < 5 <;> simp [VgaWritePort, h1, hd]
  by_cases h3 : p = VGA_SEQ_DATA
  · subst h3
    simp [VgaWritePort, VgaWriteSequencer, h1, h2]
  by_cases h4 : p = VGA_DAC_READ_INDEX
  · subst h4
    simp [VgaWritePort, h1, h2, h3]
  by_cases h5 : p = VGA_DAC_WRITE_INDEX
  · subst h5
    simp [VgaWritePort, h1, h2, h3, h4]
  by_cases h6 : p = VGA_DAC_DATA
  · subst h6
    cases hrw : s.dacReadWrite <;>
      simp [VgaWritePort, VgaWriteDac, h1, h2, h3, h4, h5, hrw]
  by_cases h7 : p = VGA_MISC_WRITE
  · subst h7
    simp [VgaWritePort, h1, h2, h3, h4, h5, h6]
  by_cases h8 : p = VGA_CRTC_INDEX
  · subst h8
    by_cases hd : d % 256 < 25 <;> simp [VgaWritePort, h1, h2, h3, h4, h5, h6, h7, hd]
  by_cases h9 : p = VGA_CRTC_DATA
  · subst h9
    simp only [VgaWritePort, VgaWriteCrtc]
    norm_num
    split_ifs <;> simp
  by_cases h10 : p = VGA_GC_INDEX
  · subst h10
    by_cases hd : d % 256 < 9 <;>
      simp [VgaWritePort, h1, h2, h3, h4, h5, h6, h7, h8, h9, hd]
  by_cases h11 : p = VGA_GC_DATA
  · subst h11
    simp only [VgaWritePort, VgaWriteGc]
    norm_num
    split_ifs <;> simp
  simp_all [VgaWritePort]

theorem indexInv_writePort (s : State) (p d : Nat) (h : IndexInv s) :
    IndexInv (VgaWritePort s p d) := by
  obtain ⟨h1, h2, h3, h4⟩ := h
  obtain ⟨e1, e2, e3, e4⟩ := VgaWritePort_indices s p d
  refine ⟨?_, ?_, ?_, ?_⟩
  · rw [e1]; split_ifs with hc
    · exact hc.2
    · exact h1
  · rw [e2]; split_ifs with hc
    · exact hc.2
    · exact h2
  · rw [e3]; split_ifs with hc
    · exact hc.2
    · exact h3
  · rw [e4]; split_ifs with hc
    · exact hc.2.2
    · exact h4

/-- A port read never changes any bank index register. -/
theorem VgaReadPort_indices (s : State) (p : Nat) :
    (VgaReadPort s p).2.seqIndex = s.seqIndex ∧
    (VgaReadPort s p).2.gcIndex = s.gcIndex ∧
    (VgaReadPort s p).2.crtcIndex = s.crtcIndex ∧
    (VgaReadPort s p).2.acIndex = s.acIndex := by
  by_cases h1 : p = VGA_AC_INDEX
  · subst h1; simp [VgaReadPort]
  by_cases h2 : p = VGA_AC_READ
  · subst h2; simp [VgaReadPort, h1]
  by_cases h3 : p = VGA_SEQ_INDEX
  · subst h3; simp [VgaReadPort, h1, h2]
  by_cases h4 : p = VGA_SEQ_DATA
  · subst h4; simp [VgaReadPort, h1, h2, h3]
  by_cases h5 : p = VGA_DAC_READ_INDEX
  · subst h5; simp [VgaReadPort, h1, h2, h3, h4]
  by_cases h6 : p = VGA_DAC_WRITE_INDEX
  · subst h6; simp [VgaReadPort, h1, h2, h3, h4, h5]
  by_cases h7 : p = VGA_DAC_DATA
  · subst h7
    cases hrw : s.dacReadWrite <;> simp [VgaReadPort, h1, h2, h3, h4, h5, h6, hrw]
  by_cases h8 : p = VGA_MISC_READ
  · subst h8; simp [VgaReadPort, h1, h2, h3, h4, h5, h6, h7]
  by_cases h9 : p = VGA_CRTC_INDEX
  · subst h9; simp [VgaReadPort, h1, h2, h3, h4, h5, h6, h7, h8]
  by_cases h10 : p = VGA_CRTC_DATA
  · subst h10; simp [VgaReadPort, h1, h2, h3, h4, h5, h6, h7, h8, h9]
  by_cases h11 : p = VGA_GC_INDEX
  · subst h11; simp [VgaReadPort, h1, h2, h3, h4, h5, h6, h7, h8, h9, h10]
  by_cases h12 : p = VGA_GC_DATA
  · subst h12; simp [VgaReadPort, h1, h2, h3, h4, h5, h6, h7, h8, h9, h10, h11]
  by_cases h13 : p = VGA_STAT_MONO ∨ p = VGA_STAT_COLOR
  · rcases h13 with hst | hst <;> subst hst <;> simp [VgaReadPort]
  · simp_all [VgaReadPort]

theorem indexInv_readPort (s : State) (p : Nat) (h : IndexInv s) :
    IndexInv (VgaReadPort s p).2 := by
  obtain ⟨h1, h2, h3, h4⟩ := h
  obtain ⟨e1, e2, e3, e4⟩ := VgaReadPort_indices s p
  exact ⟨e1 ▸ h1, e2 ▸ h2, e3 ▸ h3, e4 ▸ h4⟩

theorem indexInv_writeMemory (s : State) (a : Nat) (buf : Nat → Nat) (n : Nat)
    (h : IndexInv s) : IndexInv (VgaWriteMemory s a buf n) := by
  unfold VgaWriteMemory
  split_ifs with h1 h2
  · exact h
  · exact h
  · obtain ⟨e1, e2, e3, e4⟩ := vgaWriteMemoryLoop_indices a buf n 0 s
    unfold IndexInv at h ⊢
    rw [e1, e2, e3, e4]
    exact h

theorem VgaRefreshDisplay_seqIndex (s : State) :
    (VgaRefreshDisplay s).seqIndex = s.seqIndex := by
  simp only [VgaRefreshDisplay, VgaUpdateMode]
  split_ifs <;> rfl

theorem VgaRefreshDisplay_gcIndex (s : State) :
    (VgaRefreshDisplay s).gcIndex = s.gcIndex := by
  simp only [VgaRefreshDisplay, VgaUpdateMode]
  split_ifs <;> rfl

theorem VgaRefreshDisplay_crtcIndex (s : State) :
    (VgaRefreshDisplay s).crtcIndex = s.crtcIndex := by
  simp only [VgaRefreshDisplay, VgaUpdateMode]
  split_ifs <;> rfl

theorem VgaRefreshDisplay_acIndex (s : State) :
    (VgaRefreshDisplay s).acIndex = s.acIndex := by
  simp only [VgaRefreshDisplay, VgaUpdateMode]
  split_ifs <;> rfl

theorem indexInv_refresh (s : State) (h : IndexInv s) : IndexInv (VgaRefreshDisplay s) := by
  obtain ⟨h1, h2, h3, h4⟩ := h
  exact ⟨VgaRefreshDisplay_seqIndex s ▸ h1, VgaRefreshDisplay_gcIndex s ▸ h2,
    VgaRefreshDisplay_crtcIndex s ▸ h3, VgaRefreshDisplay_acIndex s ▸ h4⟩

/-- Every reachable state satisfies the per-bank index invariant. -/
theorem reachable_indexInv (s : State) (h : Reachable s) : IndexInv s := by
  induction h with
  | init => exact ⟨by decide, by decide, by decide, by decide⟩
  | writePort s p d hr ih => exact indexInv_writePort s p d ih
  | readPort s p hr ih => exact indexInv_readPort s p ih
  | writeMemory s a buf n hr ih => exact indexInv_writeMemory s a buf n ih
  | horizontalRetrace s hr ih => exact ih
  | refresh s hr ih => exact indexInv_refresh s ih

/-- C9 counterexample: an AC_INDEX write in index phase with data equal to
`VGA_AC_MAX_REG` retains the index but still toggles the latch, so the
claim's "no other state changes" fails for the AC bank. -/
theorem c9_ac_out_of_range_write_changes_state :
    (VgaWritePort initialState VGA_AC_INDEX VGA_AC_MAX_REG).acIndex = initialState.acIndex ∧
    (VgaWritePort initialState VGA_AC_INDEX VGA_AC_MAX_REG).acLatch ≠
      initialState.acLatch := by decide

/-- C9 (amended): an out-of-range data byte written to SEQ_INDEX, GC_INDEX
or CRTC_INDEX leaves the state completely unchanged; an out-of-range write
to AC_INDEX in index phase retains the index and changes nothing except
the AC latch, which still toggles; and every reachable state keeps each
bank's current index strictly below that bank's register count. -/
theorem c9_out_of_range_index_writes (s : State) (d : Nat) :
    (d < 256 → VGA_SEQ_MAX_REG ≤ d → VgaWritePort s VGA_SEQ_INDEX d = s) ∧
    (d < 256 → VGA_GC_MAX_REG ≤ d → VgaWritePort s VGA_GC_INDEX d = s) ∧
    (d < 256 → VGA_CRTC_MAX_REG ≤ d → VgaWritePort s VGA_CRTC_INDEX d = s) ∧
    (s.acLatch = false → d < 256 → VGA_AC_MAX_REG ≤ d →
      VgaWritePort s VGA_AC_INDEX d = { s with acLatch := true }) ∧
    (Reachable s → IndexInv s) := by
  refine ⟨?_, ?_, ?_, ?_, fun hr => reachable_indexInv s hr⟩
  · intro h1 h2
    have hd : d % 256 = d := Nat.mod_eq_of_lt h1
    simp at h2
    simp [VgaWritePort, hd, Nat.not_lt.mpr h2]
  · intro h1 h2
    have hd : d % 256 = d := Nat.mod_eq_of_lt h1
    simp at h2
    simp [VgaWritePort, hd, Nat.not_lt.mpr h2]
  · intro h1 h2
    have hd : d % 256 = d := Nat.mod_eq_of_lt h1
    simp at h2
    simp [VgaWritePort, hd, Nat.not_lt.mpr h2]
  · intro hl h1 h2
    have hd : d % 256 = d := Nat.mod_eq_of_lt h1
    simp at h2
    simp [VgaWritePort, hl, hd, Nat.not_lt.mpr h2]

/-- C9 witness: concrete out-of-range writes with data byte 200 from the
initial state, and the invariant at the initial state. -/
theorem c9_out_of_range_index_writes_witness :
    VgaWritePort initialState VGA_SEQ_INDEX 200 = initialState ∧
    VgaWritePort initialState VGA_GC_INDEX 200 = initialState ∧
    VgaWritePort initialState VGA_CRTC_INDEX 200 = initialState ∧
    VgaWritePort initialState VGA_AC_INDEX 200 = { initialState with acLatch := true } ∧
    IndexInv initialState :=
  ⟨(c9_out_of_range_index_writes initialState 200).1 (by decide) (by decide),
   (c9_out_of_range_index_writes initialState 200).2.1 (by decide) (by decide),
   (c9_out_of_range_index_writes initialState 200).2.2.1 (by decide) (by decide),
   (c9_out_of_range_index_writes initialState 200).2.2.2.1 (by decide) (by decide) (by decide),
   (c9_out_of_range_index_writes initialState 200).2.2.2.2 Reachable.init⟩

theorem and_three_eq_mod (n : Nat) : n &&& 3 = n % 4 := Nat.and_pow_two_sub_one_eq_mod n 2

theorem and_one_eq_mod (n : Nat) : n &&& 1 = n % 2 := Nat.and_one_is_mod n

set_option maxHeartbeats 4000000 in
/-- C3: with the chain-4 bit of SEQ.Memory set, all four SEQ.PlaneMask
bits set and video RAM enabled, writing any byte `B` at any guest address
`base + d` with `d < 16` and then reading the same address returns `B`,
for every starting state. -/
theorem c3_chain4_write_read_roundtrip (s : State) (d B : Nat)
    (hC4 : s.seqRegisters VGA_SEQ_MEM_REG &&& VGA_SEQ_MEM_C4 ≠ 0)
    (hMask : s.seqRegisters VGA_SEQ_MASK_REG &&& 0x0F = 0x0F)
    (hRam : s.miscRegister &&& VGA_MISC_RAM_ENABLED ≠ 0)
    (hd : d < 16) (hB : B < 256) :
    VgaReadMemory
      (VgaWriteMemory s (VgaGetVideoBaseAddress s + d) (fun _ => B) 1)
      (VgaGetVideoBaseAddress s + d) (fun _ => 0) 1 0 = B := by
  simp only [VGA_SEQ_MEM_REG, VGA_SEQ_MEM_C4, VGA_SEQ_MASK_REG,
    VGA_MISC_RAM_ENABLED] at hC4 hMask hRam
  have hm1 : s.seqRegisters 2 &&& 1 = 1 := by
    simpa [Nat.and_assoc] using congrArg (· &&& (1 : Nat)) hMask
  have hm2 : s.seqRegisters 2 &&& 2 = 2 := by
    simpa [Nat.and_assoc] using congrArg (· &&& (2 : Nat)) hMask
  have hm4 : s.seqRegisters 2 &&& 4 = 4 := by
    simpa [Nat.and_assoc] using congrArg (· &&& (4 : Nat)) hMask
  have hm8 : s.seqRegisters 2 &&& 8 = 8 := by
    simpa [Nat.and_assoc] using congrArg (· &&& (8 : Nat)) hMask
  have hbase := MemoryBase_cases ((s.gcRegisters 6 >>> 2) % 4)
  by_cases hu : s.crtcRegisters 20 &&& 64 = 0 <;>
  by_cases hmc : s.crtcRegisters 23 &&& 64 = 0 <;>
  rcases hbase with hb | hb | hb <;> interval_cases d <;>
    simp [VgaReadMemory, vgaReadMemoryLoop, VgaWriteMemory, vgaWriteMemoryLoop,
      vgaWriteMemoryPlane, VgaTranslateReadAddress, VgaTranslateWriteAddress,
      VgaGetVideoBaseAddress, VgaGetAddressSize, upd, and_three_eq_mod, and_one_eq_mod,
      hb, hu, hmc, hC4, hRam, hMask, hm1, hm2, hm4, hm8] <;>
    omega

/-- C3 witness: the round trip at `c3State`, offset 5, byte 0x5A. -/
theorem c3_chain4_write_read_roundtrip_witness :
    VgaReadMemory
      (VgaWriteMemory c3State (VgaGetVideoBaseAddress c3State + 5) (fun _ => 0x5A) 1)
      (VgaGetVideoBaseAddress c3State + 5) (fun _ => 0) 1 0 = 0x5A :=
  c3_chain4_write_read_roundtrip c3State 5 0x5A (by decide) (by decide) (by decide)
    (by decide) (by decide)

end VgaEmu
